import Mathlib

set_option linter.unusedVariables false

/-!
# Verification of the XET-Composer TokenVesting template and frontend payload

Shallow embedding of `contracts/TokenVesting.sol.tera` and of the payload
construction in `frontend/src/app/page.tsx`.

Modelling conventions:
* `uint256` values are modelled as `Nat`.  Solidity ^0.8 uses checked
  arithmetic: an overflowing operation reverts, it never wraps.  The only
  operation in this contract whose bound check is reachable at realistic
  magnitudes is the subtraction in `releasable_amount`; it is modelled
  explicitly as a checked subtraction returning `Option Nat` (`none` = revert
  on underflow).  Additions and the product in `_vested_amount` are modelled
  on unbounded `Nat` (their checked-overflow reverts require magnitudes near
  2^256, far outside any token supply).
* Addresses are modelled as `Nat`, with `0` playing the role of `address(0)`.
* A reverting call is an `Except.error`; the EVM rolls the whole call frame
  back, so the observable state after a reverted external call is the
  pre-call state (`releaseCall` below).
* The ERC20 token is external code.  Its `transfer` is modelled as moving
  exactly the requested amount from the vesting contract's balance to the
  beneficiary when it succeeds; an extra `transferOk : Bool` parameter lets
  the external call fail arbitrarily (non-standard tokens).
-/

namespace XetComposer

/-- Full observable state of a deployed `TokenVesting` contract together with
the token balances relevant to it: the five immutable constructor fields, the
`Ownable` owner, the mutable `released` counter, and the token's view of the
contract (`balance` = `token.balanceOf(address(this))`) and of the
beneficiary (`beneficiaryBal` = `token.balanceOf(beneficiary)`). -/
structure VState where
  token : Nat
  beneficiary : Nat
  owner : Nat
  start_time : Nat
  cliff_duration : Nat
  duration : Nat
  released : Nat
  balance : Nat
  beneficiaryBal : Nat
deriving Repr, DecidableEq

/-- Constructor arguments of `TokenVesting`, in declaration order. -/
structure ConstructorArgs where
  token_address : Nat
  beneficiary : Nat
  start_time : Nat
  cliff_duration : Nat
  duration : Nat
  initial_owner : Nat
deriving Repr, DecidableEq

/-- The `TokenVesting` constructor (template lines 33-52).  The five
`require` statements are checked in source order; on success the immutable
fields are set from the arguments, `released` starts at 0 and the fresh
contract holds no tokens ("It's assumed tokens are transferred to this
contract separately").  The `Ownable(_initial_owner)` base constructor is
vendored third-party code outside this repository; it is modelled as the
plain owner assignment it performs. -/
def constructorTV (a : ConstructorArgs) (block_timestamp : Nat) :
    Except String VState :=
  if a.token_address = 0 then
    .error "TokenVesting: token address cannot be zero"
  else if a.beneficiary = 0 then
    .error "TokenVesting: beneficiary cannot be zero"
  else if a.duration = 0 then
    .error "TokenVesting: duration must be > 0"
  else if a.duration < a.cliff_duration then
    .error "TokenVesting: cliff must be <= duration"
  else if a.start_time < block_timestamp then
    .error "TokenVesting: start time must be >= current time"
  else
    .ok { token := a.token_address
          beneficiary := a.beneficiary
          owner := a.initial_owner
          start_time := a.start_time
          cliff_duration := a.cliff_duration
          duration := a.duration
          released := 0
          balance := 0
          beneficiaryBal := 0 }

/-- `_vested_amount(_timestamp)` (template lines 80-96):
`total_balance = token.balanceOf(address(this)) + released`; 0 before the
cliff, everything after the full duration, linear from `start_time` (with
truncating division) in between. -/
def vested_amount (s : VState) (t : Nat) : Nat :=
  let total_balance := s.balance + s.released
  if t < s.start_time + s.cliff_duration then 0
  else if s.start_time + s.duration ≤ t then total_balance
  else total_balance * (t - s.start_time) / s.duration

/-- The same piecewise schedule as a function of an abstract total: the
formula the contract evaluates once `total_balance` has been read.  Used to
state that `_vested_amount` computes its total as balance + released. -/
def vestedOfTotal (total st cd du t : Nat) : Nat :=
  if t < st + cd then 0
  else if st + du ≤ t then total
  else total * (t - st) / du

/-- `releasable_amount()` (template lines 57-59):
`_vested_amount(block.timestamp) - released` with Solidity ^0.8 checked
subtraction — `none` models the underflow revert. -/
def releasable_amount (s : VState) (t : Nat) : Option Nat :=
  if s.released ≤ vested_amount s t then some (vested_amount s t - s.released)
  else none

/-- One execution of `release()` (template lines 64-73) at current time `t`:
compute `releasable_amount()`, `require(amount_to_release > 0)`, advance
`released`, then `require(token.transfer(beneficiary, amount))`.  The token
call is external: it succeeds (moving exactly `amount`) when `transferOk` is
true and the contract's balance suffices, and fails otherwise.  An
`Except.error` is a revert of the whole call. -/
def releaseRun (s : VState) (t : Nat) (transferOk : Bool) :
    Except String VState :=
  match releasable_amount s t with
  | none => .error "TokenVesting: arithmetic underflow"
  | some amount_to_release =>
    if amount_to_release = 0 then
      .error "TokenVesting: no tokens are due"
    else
      let s1 : VState := { s with released := s.released + amount_to_release }
      if transferOk ∧ amount_to_release ≤ s1.balance then
        .ok { s1 with
              balance := s1.balance - amount_to_release
              beneficiaryBal := s1.beneficiaryBal + amount_to_release }
      else
        .error "TokenVesting: token transfer failed"

/-- Observable state after an external call to `release()`: the EVM rolls a
reverted call frame back, so on `error` the state is unchanged. -/
def releaseCall (s : VState) (t : Nat) (transferOk : Bool) : VState :=
  match releaseRun s t transferOk with
  | .ok s' => s'
  | .error _ => s

/-- `true` on a successful call, `false` on a revert. -/
def exceptOk (e : Except String VState) : Bool :=
  match e with
  | .ok _ => true
  | .error _ => false

/-- States the deployed contract can actually be in, together with a current
time: freshly constructed at the construction time; time only moves forward;
anyone may deposit tokens into the contract; and `release()` may run when it
succeeds. -/
inductive Reachable : VState → Nat → Prop
  | init (a : ConstructorArgs) (t0 : Nat) (s : VState) :
      constructorTV a t0 = .ok s → Reachable s t0
  | tick {s : VState} {t t' : Nat} :
      Reachable s t → t ≤ t' → Reachable s t'
  | deposit {s : VState} {t : Nat} (d : Nat) :
      Reachable s t → Reachable { s with balance := s.balance + d } t
  | step_release {s s' : VState} {t : Nat} (transferOk : Bool) :
      Reachable s t → releaseRun s t transferOk = .ok s' → Reachable s' t

/-! ## Basic lemmas about the vesting math -/

/-- `_vested_amount` is exactly the abstract schedule applied to the total
`balance + released` read at evaluation time. -/
theorem vested_amount_ofTotal (s : VState) (t : Nat) :
    vested_amount s t =
      vestedOfTotal (s.balance + s.released)
        s.start_time s.cliff_duration s.duration t := rfl

/-- The linear branch of the schedule never exceeds the total, because in
that branch at most `duration` seconds have elapsed since `start_time`. -/
theorem linear_le_total (total st du t : Nat) (h : t < st + du) :
    total * (t - st) / du ≤ total := by
  rcases Nat.eq_zero_or_pos du with hd | hd
  · subst hd; simp
  · calc total * (t - st) / du
        ≤ total * du / du :=
          Nat.div_le_div_right (Nat.mul_le_mul_left _ (by omega))
      _ ≤ total := Nat.le_of_eq (Nat.mul_div_cancel _ hd)

/-- The vested amount never exceeds the total (no schedule hypotheses
needed: the linear branch forces `t - start_time < duration`). -/
theorem vestedOfTotal_le_total (total st cd du t : Nat) :
    vestedOfTotal total st cd du t ≤ total := by
  unfold vestedOfTotal
  split
  · exact Nat.zero_le _
  · split
    · exact Nat.le_refl _
    · exact linear_le_total total st du t (by omega)

/-- Monotonicity of the schedule in the timestamp. -/
theorem vestedOfTotal_mono_time (total st cd du : Nat)
    (hcd : cd ≤ du) (hd : 0 < du) {t1 t2 : Nat} (h : t1 ≤ t2) :
    vestedOfTotal total st cd du t1 ≤ vestedOfTotal total st cd du t2 := by
  unfold vestedOfTotal
  by_cases h1 : t1 < st + cd
  · rw [if_pos h1]
    exact Nat.zero_le _
  · rw [if_neg h1, if_neg (show ¬ t2 < st + cd by omega)]
    by_cases h2 : st + du ≤ t1
    · rw [if_pos h2, if_pos (show st + du ≤ t2 by omega)]
    · rw [if_neg h2]
      by_cases h4 : st + du ≤ t2
      · rw [if_pos h4]
        exact linear_le_total total st du t1 (by omega)
      · rw [if_neg h4]
        exact Nat.div_le_div_right
          (Nat.mul_le_mul_left _ (Nat.sub_le_sub_right h st))

/-- Monotonicity of the schedule in the total ever held, for fixed
parameters. -/
theorem vestedOfTotal_mono_total {total total' : Nat} (st cd du t : Nat)
    (h : total ≤ total') :
    vestedOfTotal total st cd du t ≤ vestedOfTotal total' st cd du t := by
  unfold vestedOfTotal
  split
  · exact Nat.le_refl _
  · split
    · exact h
    · exact Nat.div_le_div_right (Nat.mul_le_mul_right _ h)

/-- The vested amount never exceeds `balance + released`. -/
theorem vested_amount_le_total (s : VState) (t : Nat) :
    vested_amount s t ≤ s.balance + s.released := by
  rw [vested_amount_ofTotal]
  exact vestedOfTotal_le_total _ _ _ _ _

/-- Monotonicity of the vested amount in the timestamp. -/
theorem vested_amount_mono_time (s : VState)
    (hcd : s.cliff_duration ≤ s.duration) (hd : 0 < s.duration)
    {t1 t2 : Nat} (h : t1 ≤ t2) :
    vested_amount s t1 ≤ vested_amount s t2 := by
  rw [vested_amount_ofTotal, vested_amount_ofTotal]
  exact vestedOfTotal_mono_time _ _ _ _ hcd hd h

/-- `_vested_amount` reads the token balance and `released` only through
their sum: two states with the same schedule and the same total vest the
same amount. -/
theorem vested_amount_congr (s s' : VState)
    (hst : s'.start_time = s.start_time)
    (hcd : s'.cliff_duration = s.cliff_duration)
    (hdu : s'.duration = s.duration)
    (htot : s'.balance + s'.released = s.balance + s.released) (t : Nat) :
    vested_amount s' t = vested_amount s t := by
  rw [vested_amount_ofTotal, vested_amount_ofTotal, hst, hcd, hdu, htot]

/-- Inversion of a successful `release()`: it happened with some positive
amount, namely `releasable_amount`, the external transfer was allowed and
covered, and the new state moved exactly that amount. -/
theorem releaseRun_ok_inv {s s' : VState} {t : Nat} {transferOk : Bool}
    (h : releaseRun s t transferOk = .ok s') :
    ∃ amt, releasable_amount s t = some amt ∧ 0 < amt ∧
      amt ≤ s.balance ∧ transferOk = true ∧
      s' = { s with released := s.released + amt
                    balance := s.balance - amt
                    beneficiaryBal := s.beneficiaryBal + amt } := by
  unfold releaseRun at h
  split at h
  next hra => exact absurd h (by simp)
  next amt hra =>
    split at h
    next hz => exact absurd h (by simp)
    next hz =>
      dsimp only at h
      split at h
      next htr =>
        refine ⟨amt, hra, Nat.pos_of_ne_zero hz, htr.2, htr.1, ?_⟩
        cases h
        rfl
      next htr => exact absurd h (by simp)

/-- A successful `release()` keeps the total ever held unchanged: the
transfer moves out of the contract's balance exactly what `released` gains,
so `_vested_amount` is unchanged at every timestamp. -/
theorem releaseRun_preserves_total {s s' : VState} {t : Nat}
    {transferOk : Bool} (hok : releaseRun s t transferOk = .ok s') :
    s'.balance + s'.released = s.balance + s.released ∧
      ∀ u, vested_amount s' u = vested_amount s u := by
  obtain ⟨amt, hra, hpos, hbal, _, hs'⟩ := releaseRun_ok_inv hok
  subst hs'
  have htot : s.balance - amt + (s.released + amt) =
      s.balance + s.released := by omega
  exact ⟨htot, fun u => vested_amount_congr s
    { s with released := s.released + amt
             balance := s.balance - amt
             beneficiaryBal := s.beneficiaryBal + amt } rfl rfl rfl htot u⟩

/-- A successful `release()` preserves the schedule constraints and leaves
`released` exactly at the vested amount of the current time. -/
theorem release_preserves_invariant {s s' : VState} {t : Nat}
    {transferOk : Bool} (hok : releaseRun s t transferOk = .ok s')
    (hwf : s.cliff_duration ≤ s.duration ∧ 0 < s.duration) :
    (s'.cliff_duration ≤ s'.duration ∧ 0 < s'.duration) ∧
      s'.released ≤ vested_amount s' t := by
  have htot := releaseRun_preserves_total hok
  obtain ⟨amt, hra, hpos, hbal, _, hs'⟩ := releaseRun_ok_inv hok
  unfold releasable_amount at hra
  split at hra
  next hle =>
    have hamt : amt = vested_amount s t - s.released := by
      simpa using hra.symm
    subst hs'
    refine ⟨⟨hwf.1, hwf.2⟩, ?_⟩
    rw [htot.2 t]
    show s.released + amt ≤ vested_amount s t
    omega
  next => exact absurd hra (by simp)

/-- The inductive invariant of reachability: the constructor's schedule
constraints hold, and `released` never exceeds the currently vested
amount. -/
theorem reachable_invariant {s : VState} {t : Nat} (h : Reachable s t) :
    (s.cliff_duration ≤ s.duration ∧ 0 < s.duration) ∧
      s.released ≤ vested_amount s t := by
  induction h with
  | init a t0 s hctor =>
    unfold constructorTV at hctor
    split at hctor
    · exact absurd hctor (by simp)
    · split at hctor
      · exact absurd hctor (by simp)
      · split at hctor
        · exact absurd hctor (by simp)
        · split at hctor
          · exact absurd hctor (by simp)
          · split at hctor
            · exact absurd hctor (by simp)
            · rename_i h1 h2 h3 h4 h5
              cases hctor
              exact ⟨⟨show a.cliff_duration ≤ a.duration by omega,
                show 0 < a.duration by omega⟩, Nat.zero_le _⟩
  | tick hreach hle ih =>
    exact ⟨ih.1, Nat.le_trans ih.2
      (vested_amount_mono_time _ ih.1.1 ih.1.2 hle)⟩
  | deposit d hreach ih =>
    rename_i s t
    refine ⟨ih.1, Nat.le_trans ih.2 ?_⟩
    show vestedOfTotal (s.balance + s.released)
        s.start_time s.cliff_duration s.duration t ≤
      vestedOfTotal (s.balance + d + s.released)
        s.start_time s.cliff_duration s.duration t
    exact vestedOfTotal_mono_total _ _ _ _ (by omega)
  | step_release transferOk hreach hok ih =>
    exact release_preserves_invariant hok ih.1

/-- Once `releasable_amount` is known, `release()` is the residual
zero-amount check followed by the external transfer. -/
theorem releaseRun_eq (s : VState) (t : Nat) (transferOk : Bool) (amt : Nat)
    (h : releasable_amount s t = some amt) :
    releaseRun s t transferOk =
      if amt = 0 then .error "TokenVesting: no tokens are due"
      else if transferOk ∧ amt ≤ s.balance then
        .ok { s with released := s.released + amt
                     balance := s.balance - amt
                     beneficiaryBal := s.beneficiaryBal + amt }
      else .error "TokenVesting: token transfer failed" := by
  unfold releaseRun
  rw [h]

/-! ## Frontend payload construction (`frontend/src/app/page.tsx`) -/

/-- The controlled form state of the vesting page (`VestingFormData` in
page.tsx): every field is held as the raw input string. -/
structure VestingFormData where
  tokenAddress : String
  beneficiaryAddress : String
  startTime : String
  cliffDurationSeconds : String
  totalVestingSeconds : String
  initialOwnerAddress : String
deriving Repr, DecidableEq

/-- JavaScript `parseInt(s, 10)`: skip leading whitespace, take an optional
sign and then the longest leading run of decimal digits; `none` models the
`NaN` result when no digit is found. -/
def jsParseInt (s : String) : Option Int :=
  let cs := s.data.dropWhile fun c => c = ' ' ∨ c = '\t' ∨ c = '\n' ∨ c = '\r'
  let sr : Int × List Char :=
    match cs with
    | '-' :: r => (-1, r)
    | '+' :: r => (1, r)
    | _ => (1, cs)
  let ds := sr.2.takeWhile Char.isDigit
  if ds.isEmpty then none
  else some (sr.1 *
    Int.ofNat (ds.foldl (fun n c => n * 10 + (c.toNat - '0'.toNat)) 0))

/-- The `params` object `handleSubmit` builds: addresses stay the entered
strings, `start_time` is a Unix-seconds timestamp, and the two durations
are `parseInt(_, 10)` results (`none` = `NaN`). -/
structure VestingParams where
  token_address : String
  beneficiary : String
  start_time : Int
  cliff_duration : Option Int
  duration : Option Int
  initial_owner : String
deriving Repr, DecidableEq

/-- The inbound request payload posted to `/api/deploy`: the template
identifier and the parameter mapping. -/
structure DeployPayload where
  contract : String
  params : VestingParams
deriving Repr, DecidableEq

/-- `handleSubmit`'s payload construction (page.tsx lines 40-51), with the
two browser-environment inputs abstracted: `dateMs str` stands for
`new Date(str).getTime()` (milliseconds) and `nowMs` for `Date.now()`.
`Math.floor` of a millisecond count divided by 1000 is flooring division
(`Int.fdiv`); the empty `startTime` string is the only falsy value the
`formData.startTime ?` test can see. -/
def buildPayload (dateMs : String → Int) (nowMs : Int)
    (fd : VestingFormData) : DeployPayload :=
  { contract := "TokenVesting"
    params :=
      { token_address := fd.tokenAddress
        beneficiary := fd.beneficiaryAddress
        start_time :=
          if fd.startTime ≠ "" then (dateMs fd.startTime).fdiv 1000
          else nowMs.fdiv 1000
        cliff_duration := jsParseInt fd.cliffDurationSeconds
        duration := jsParseInt fd.totalVestingSeconds
        initial_owner := fd.initialOwnerAddress } }

/-! ## Concrete states used by the witnesses -/

/-- Constructor arguments of a concrete deployment. -/
def argsEx : ConstructorArgs :=
  { token_address := 1, beneficiary := 2, start_time := 100,
    cliff_duration := 10, duration := 50, initial_owner := 3 }

/-- The state `constructorTV argsEx 40` produces. -/
def stateEx0 : VState :=
  { token := 1, beneficiary := 2, owner := 3, start_time := 100,
    cliff_duration := 10, duration := 50, released := 0, balance := 0,
    beneficiaryBal := 0 }

/-- `stateEx0` after a deposit of 1000 tokens. -/
def stateEx1 : VState := { stateEx0 with balance := stateEx0.balance + 1000 }

/-- `stateEx1` after a successful `release()` at time 125: the vested
amount there is `1000 * 25 / 50 = 500`. -/
def stateEx2 : VState :=
  { token := 1, beneficiary := 2, owner := 3, start_time := 100,
    cliff_duration := 10, duration := 50, released := 500, balance := 500,
    beneficiaryBal := 500 }

/-- `stateEx1` is a reachable contract state at time 125. -/
theorem stateEx1_reachable : Reachable stateEx1 125 :=
  Reachable.tick
    (Reachable.deposit 1000 (Reachable.init argsEx 40 stateEx0 rfl))
    (by omega)

/-- Fixture before the cliff with an empty balance, for the C7
counterexample: schedule starts at 0, cliff 5, duration 10. -/
def stateC7 : VState :=
  { token := 1, beneficiary := 2, owner := 3, start_time := 0,
    cliff_duration := 5, duration := 10, released := 0, balance := 0,
    beneficiaryBal := 0 }

/-- Concrete filled form for the C8 witness. -/
def formEx : VestingFormData :=
  { tokenAddress := "0x1111111111111111111111111111111111111111"
    beneficiaryAddress := "0x2222222222222222222222222222222222222222"
    startTime := "2026-01-01T00:00"
    cliffDurationSeconds := "2592000"
    totalVestingSeconds := "31536000"
    initialOwnerAddress := "0x3333333333333333333333333333333333333333" }

/-! ## The claims -/

/-- C1: for a schedule with `cliff_duration ≤ duration` and `0 < duration`
and a fixed total ever held `balance + released`, `_vested_amount` is
piecewise: 0 strictly before `start_time + cliff_duration`, the full total
from `start_time + duration` on, and
`total * (t - start_time) / duration` with truncating division in
between. -/
theorem c1_vested_piecewise (s : VState) (t : Nat)
    (hcd : s.cliff_duration ≤ s.duration) (hd : 0 < s.duration) :
    (t < s.start_time + s.cliff_duration → vested_amount s t = 0) ∧
    (s.start_time + s.duration ≤ t →
      vested_amount s t = s.balance + s.released) ∧
    (s.start_time + s.cliff_duration ≤ t → t < s.start_time + s.duration →
      vested_amount s t =
        (s.balance + s.released) * (t - s.start_time) / s.duration) := by
  refine ⟨fun h1 => ?_, fun h2 => ?_, fun h3 h4 => ?_⟩
  · rw [vested_amount_ofTotal]
    unfold vestedOfTotal
    rw [if_pos h1]
  · rw [vested_amount_ofTotal]
    unfold vestedOfTotal
    rw [if_neg (by omega), if_pos h2]
  · rw [vested_amount_ofTotal]
    unfold vestedOfTotal
    rw [if_neg (by omega), if_neg (by omega)]

/-- C1 witness at the concrete mid-schedule point `stateEx1`, `t = 125`. -/
theorem c1_vested_piecewise_witness :
    (125 < stateEx1.start_time + stateEx1.cliff_duration →
      vested_amount stateEx1 125 = 0) ∧
    (stateEx1.start_time + stateEx1.duration ≤ 125 →
      vested_amount stateEx1 125 = stateEx1.balance + stateEx1.released) ∧
    (stateEx1.start_time + stateEx1.cliff_duration ≤ 125 →
      125 < stateEx1.start_time + stateEx1.duration →
      vested_amount stateEx1 125 =
        (stateEx1.balance + stateEx1.released) * (125 - stateEx1.start_time) /
          stateEx1.duration) :=
  c1_vested_piecewise stateEx1 125 (by decide) (by decide)

/-- C2: the constructor succeeds exactly when the token address is
non-zero, the beneficiary is non-zero, `duration > 0`,
`cliff_duration ≤ duration` and `start_time` is not in the past; on success
the five immutable fields hold the supplied arguments. -/
theorem c2_constructor_checks (a : ConstructorArgs) (now : Nat) :
    (exceptOk (constructorTV a now) = true ↔
      (a.token_address ≠ 0 ∧ a.beneficiary ≠ 0 ∧ 0 < a.duration ∧
        a.cliff_duration ≤ a.duration ∧ now ≤ a.start_time)) ∧
    ∀ s, constructorTV a now = .ok s →
      s.token = a.token_address ∧ s.beneficiary = a.beneficiary ∧
      s.start_time = a.start_time ∧ s.cliff_duration = a.cliff_duration ∧
      s.duration = a.duration := by
  by_cases h1 : a.token_address = 0
  · refine ⟨?_, fun s hs => ?_⟩
    · simp [constructorTV, exceptOk, h1]
    · simp [constructorTV, h1] at hs
  · by_cases h2 : a.beneficiary = 0
    · refine ⟨?_, fun s hs => ?_⟩
      · simp [constructorTV, exceptOk, h1, h2]
      · simp [constructorTV, h1, h2] at hs
    · by_cases h3 : a.duration = 0
      · refine ⟨?_, fun s hs => ?_⟩
        · simp [constructorTV, exceptOk, h1, h2, h3]
        · simp [constructorTV, h1, h2, h3] at hs
      · by_cases h4 : a.duration < a.cliff_duration
        · refine ⟨?_, fun s hs => ?_⟩
          · simp [constructorTV, exceptOk, h1, h2, h3, h4]
          · simp [constructorTV, h1, h2, h3, h4] at hs
        · by_cases h5 : a.start_time < now
          · refine ⟨?_, fun s hs => ?_⟩
            · simp [constructorTV, exceptOk, h1, h2, h3, h4, h5]
            · simp [constructorTV, h1, h2, h3, h4, h5] at hs
          · refine ⟨?_, fun s hs => ?_⟩
            · simp [constructorTV, exceptOk, h1, h2, h3, h4, h5]
              omega
            · simp [constructorTV, h1, h2, h3, h4, h5] at hs
              subst hs
              simp

/-- C3: `release()` is atomic on failure: whenever the call reverts — in
particular when the token transfer fails — the observable contract state is
exactly the pre-call state, so `released` has not advanced. -/
theorem c3_release_atomic (s : VState) (t : Nat) (transferOk : Bool)
    (h : exceptOk (releaseRun s t transferOk) = false) :
    releaseCall s t transferOk = s := by
  unfold releaseCall
  split
  next s' heq =>
    rw [heq] at h
    simp [exceptOk] at h
  next e heq => rfl

/-- C3 witness: at `stateEx1` (releasable 500 at time 125) with a failing
token transfer, the call reverts and the state is unchanged. -/
theorem c3_release_atomic_witness : releaseCall stateEx1 125 false = stateEx1 :=
  c3_release_atomic stateEx1 125 false (by decide)

/-- C4: over reachable contract states, with the external token call
behaving, `release()` reverts exactly when `releasable_amount()` is 0; when
it succeeds it advances `released` by exactly the releasable amount and
transfers exactly that amount from the contract to the beneficiary. -/
theorem c4_release_iff_releasable (s : VState) (t : Nat)
    (hreach : Reachable s t) :
    (exceptOk (releaseRun s t true) = false ↔
      releasable_amount s t = some 0) ∧
    ∀ s', releaseRun s t true = .ok s' →
      releasable_amount s t = some (s'.released - s.released) ∧
      s'.released = s.released + (vested_amount s t - s.released) ∧
      s'.beneficiaryBal =
        s.beneficiaryBal + (vested_amount s t - s.released) ∧
      s'.balance = s.balance - (vested_amount s t - s.released) := by
  have hle := (reachable_invariant hreach).2
  have htotle := vested_amount_le_total s t
  have hra : releasable_amount s t =
      some (vested_amount s t - s.released) := by
    unfold releasable_amount
    rw [if_pos hle]
  constructor
  · by_cases hz : vested_amount s t - s.released = 0
    · constructor
      · intro _
        rw [hra, hz]
      · intro _
        rw [releaseRun_eq s t true _ hra, if_pos hz]
        rfl
    · have hbal : vested_amount s t - s.released ≤ s.balance := by omega
      constructor
      · intro hfalse
        rw [releaseRun_eq s t true _ hra, if_neg hz,
          if_pos ⟨rfl, hbal⟩] at hfalse
        simp [exceptOk] at hfalse
      · intro hsome
        rw [hra] at hsome
        simp at hsome
        exact absurd hsome hz
  · intro s' hs'
    obtain ⟨amt, hra', hpos, hbal', _, rfl⟩ := releaseRun_ok_inv hs'
    rw [hra] at hra'
    have hamt : amt = vested_amount s t - s.released := by
      simpa using hra'.symm
    subst hamt
    refine ⟨?_, rfl, rfl, rfl⟩
    rw [hra]
    simp only [Option.some.injEq]
    omega

/-- C4 witness at the reachable state `stateEx1`, time 125: releasable is
500, the call succeeds and moves exactly 500. -/
theorem c4_release_iff_releasable_witness :
    (exceptOk (releaseRun stateEx1 125 true) = false ↔
      releasable_amount stateEx1 125 = some 0) ∧
    ∀ s', releaseRun stateEx1 125 true = .ok s' →
      releasable_amount stateEx1 125 =
        some (s'.released - stateEx1.released) ∧
      s'.released = stateEx1.released +
        (vested_amount stateEx1 125 - stateEx1.released) ∧
      s'.beneficiaryBal = stateEx1.beneficiaryBal +
        (vested_amount stateEx1 125 - stateEx1.released) ∧
      s'.balance = stateEx1.balance -
        (vested_amount stateEx1 125 - stateEx1.released) :=
  c4_release_iff_releasable stateEx1 125 stateEx1_reachable

/-- C5: for a fixed schedule with `cliff_duration ≤ duration` and
`0 < duration` and a fixed total, the vested amount is monotonically
non-decreasing in the timestamp. -/
theorem c5_vested_monotone (s : VState) (t1 t2 : Nat)
    (hcd : s.cliff_duration ≤ s.duration) (hd : 0 < s.duration)
    (h : t1 ≤ t2) :
    vested_amount s t1 ≤ vested_amount s t2 :=
  vested_amount_mono_time s hcd hd h

/-- C5 witness across the `t = start + duration` boundary. -/
theorem c5_vested_monotone_witness :
    vested_amount stateEx1 120 ≤ vested_amount stateEx1 160 :=
  c5_vested_monotone stateEx1 120 160 (by decide) (by decide) (by decide)

/-- C6: in every reachable contract state, `releasable_amount()` returns
(without reverting) exactly the vested amount at the current time minus the
`released` counter. -/
theorem c6_releasable_eq (s : VState) (t : Nat) (hreach : Reachable s t) :
    releasable_amount s t = some (vested_amount s t - s.released) := by
  unfold releasable_amount
  rw [if_pos (reachable_invariant hreach).2]

/-- C6 witness at the reachable state `stateEx1`, time 125. -/
theorem c6_releasable_eq_witness :
    releasable_amount stateEx1 125 =
      some (vested_amount stateEx1 125 - stateEx1.released) :=
  c6_releasable_eq stateEx1 125 stateEx1_reachable

/-- C7 counterexample to "deposits increase the vested amount at every
later timestamp": depositing 100 tokens into `stateC7` leaves the vested
amount at the later timestamp 3 (inside the cliff) at 0 — no increase. -/
theorem c7_counterexample :
    vested_amount stateC7 3 = 0 ∧
    vested_amount { stateC7 with balance := stateC7.balance + 100 } 3 = 0 ∧
    ¬ vested_amount stateC7 3 <
        vested_amount { stateC7 with balance := stateC7.balance + 100 } 3 := by
  decide

/-- C7 amended: `_vested_amount` reads its total as the current balance
plus the amount already released at every evaluation; consequently a
deposit never decreases the vested amount at any timestamp, and from
`start_time + duration` on it increases it by exactly the deposited
amount. -/
theorem c7_deposit_effect (s : VState) (d t : Nat)
    (hcd : s.cliff_duration ≤ s.duration) :
    vested_amount s t =
      vestedOfTotal (s.balance + s.released)
        s.start_time s.cliff_duration s.duration t ∧
    vested_amount s t ≤
      vested_amount { s with balance := s.balance + d } t ∧
    (s.start_time + s.duration ≤ t →
      vested_amount { s with balance := s.balance + d } t =
        vested_amount s t + d) := by
  refine ⟨vested_amount_ofTotal s t, ?_, fun h => ?_⟩
  · show vestedOfTotal (s.balance + s.released)
        s.start_time s.cliff_duration s.duration t ≤
      vestedOfTotal (s.balance + d + s.released)
        s.start_time s.cliff_duration s.duration t
    exact vestedOfTotal_mono_total _ _ _ _ (by omega)
  · show vestedOfTotal (s.balance + d + s.released)
        s.start_time s.cliff_duration s.duration t =
      vestedOfTotal (s.balance + s.released)
        s.start_time s.cliff_duration s.duration t + d
    unfold vestedOfTotal
    rw [if_neg (by omega), if_pos h, if_neg (by omega), if_pos h]
    omega

/-- C7 amended witness: depositing 100 into `stateC7` at the
post-duration timestamp 20 raises the vested amount by exactly 100. -/
theorem c7_deposit_effect_witness :
    vested_amount stateC7 20 =
      vestedOfTotal (stateC7.balance + stateC7.released)
        stateC7.start_time stateC7.cliff_duration stateC7.duration 20 ∧
    vested_amount stateC7 20 ≤
      vested_amount { stateC7 with balance := stateC7.balance + 100 } 20 ∧
    (stateC7.start_time + stateC7.duration ≤ 20 →
      vested_amount { stateC7 with balance := stateC7.balance + 100 } 20 =
        vested_amount stateC7 20 + 100) :=
  c7_deposit_effect stateC7 100 20 (by decide)

/-- C8: for every filled form state, `handleSubmit` builds the payload
with `contract = "TokenVesting"` and the declared parameter names mapped to
their values: addresses as the entered strings, `start_time` as the
Unix-seconds floor of the parsed date, and the two durations via base-10
integer parsing. -/
theorem c8_payload (dateMs : String → Int) (nowMs : Int)
    (fd : VestingFormData) (hfilled : fd.startTime ≠ "") :
    buildPayload dateMs nowMs fd =
      { contract := "TokenVesting"
        params :=
          { token_address := fd.tokenAddress
            beneficiary := fd.beneficiaryAddress
            start_time := (dateMs fd.startTime).fdiv 1000
            cliff_duration := jsParseInt fd.cliffDurationSeconds
            duration := jsParseInt fd.totalVestingSeconds
            initial_owner := fd.initialOwnerAddress } } := by
  unfold buildPayload
  rw [if_pos hfilled]

/-- C8 witness: the concrete filled form, with the date resolving to
1767225600123 ms, yields the fully evaluated payload. -/
theorem c8_payload_witness :
    buildPayload (fun _ => 1767225600123) 0 formEx =
      { contract := "TokenVesting"
        params :=
          { token_address := "0x1111111111111111111111111111111111111111"
            beneficiary := "0x2222222222222222222222222222222222222222"
            start_time := 1767225600
            cliff_duration := some 2592000
            duration := some 31536000
            initial_owner :=
              "0x3333333333333333333333333333333333333333" } } :=
  c8_payload (fun _ => 1767225600123) 0 formEx (by decide)

/-- C9: a successful `release()` preserves `balance + released` (the
transfer moves out exactly what `released` gains), and therefore preserves
`_vested_amount` at every timestamp. -/
theorem c9_release_preserves_total (s s' : VState) (t : Nat)
    (transferOk : Bool) (h : releaseRun s t transferOk = .ok s') :
    s'.balance + s'.released = s.balance + s.released ∧
    ∀ u, vested_amount s' u = vested_amount s u :=
  releaseRun_preserves_total h

/-- C9 witness: the successful release at `stateEx1`, time 125, yields
`stateEx2` and preserves both quantities. -/
theorem c9_release_preserves_total_witness :
    stateEx2.balance + stateEx2.released =
      stateEx1.balance + stateEx1.released ∧
    ∀ u, vested_amount stateEx2 u = vested_amount stateEx1 u :=
  c9_release_preserves_total stateEx1 stateEx2 125 true rfl

/-- C10: with `cliff_duration ≤ duration` and `0 < duration`, the vested
amount never exceeds the total ever held `balance + released`, in exact
unsigned truncating-division arithmetic. -/
theorem c10_vested_le_total (s : VState) (t : Nat)
    (hcd : s.cliff_duration ≤ s.duration) (hd : 0 < s.duration) :
    vested_amount s t ≤ s.balance + s.released :=
  vested_amount_le_total s t

/-- C10 witness at `stateEx1`, time 125. -/
theorem c10_vested_le_total_witness :
    vested_amount stateEx1 125 ≤ stateEx1.balance + stateEx1.released :=
  c10_vested_le_total stateEx1 125 (by decide) (by decide)

end XetComposer
